import Mathlib

/-!
Verification of the Cachet status-page agent (src/agent.py) against its
natural-language specification.

The development shallowly embeds the agent's core logic:

* startup parameter resolution (`first_val`, `process_params`);
* the SpringBoot health probe (`SpringBootProbe.init`, `SpringBootProbe.check`),
  with Python dictionary/JSON semantics made explicit: the `in` operator,
  item access (raising `KeyError` / `TypeError`), and string concatenation;
* the entity resolver (`get_or_create_group`, `get_or_create_component`)
  over an explicit model of the remote Cachet API state, with the group
  cache and remote-call counters threaded through every operation;
* the configuration parser (`create_probe`, `create_probes_from_data`);
* the run loop (`run_loop`), with the reporter's `put` calls recorded in a
  trace and an uncaught exception modelled as an abnormal loop exit.

Stateful Python code becomes explicit state passing; a raised exception that
the code does not catch becomes an `Except.error` (paired with the state at
the point of the raise, since Python side effects are not rolled back).
Cachet status codes are kept as the bare integers the source uses:
1 = Operational, 3 = Partial Outage, 4 = Major Outage.
-/

deriving instance DecidableEq for Except

/-! ## Startup parameter resolution (src/agent.py, `process_params`) -/

/-- The argparse result relevant to `process_params`: `--endpoint` and
`--api-token` default to `None`; `--check-interval` defaults to 60 and
`--config-file` to "agent.conf". -/
structure Args where
  endpoint : Option String
  api_token : Option String
  check_interval : Int
  config_file : String
deriving DecidableEq, Repr

/-- The three environment variables the agent reads: CACHET_ENDPOINT,
CACHET_API_TOKEN, AGENT_CONFIGURATION (each possibly unset). -/
structure Env where
  cachet_endpoint : Option String
  cachet_api_token : Option String
  agent_configuration : Option String
deriving DecidableEq, Repr

/-- The `params` dictionary built by `process_params`. -/
structure Params where
  endpoint : Option String
  apiToken : Option String
  checkInterval : Int
  configFile : String
  configData : Option String
deriving DecidableEq, Repr

/-- `first_val(*args)`: return the first argument that is not `None`;
falling off the end returns `None`. -/
def first_val : List (Option String) → Option String
  | [] => none
  | some v :: _ => some v
  | none :: rest => first_val rest

/-- `process_params(args)`: builds the startup parameter dictionary.  Note the
call order in the source: `first_val(os.environ.get(VAR), args.flag)` puts the
environment variable FIRST. -/
def process_params (env : Env) (args : Args) : Params :=
  { endpoint := first_val [env.cachet_endpoint, args.endpoint]
    apiToken := first_val [env.cachet_api_token, args.api_token]
    checkInterval := args.check_interval
    configFile := args.config_file
    configData := env.agent_configuration }

/-! ## JSON values and Python evaluation errors -/

/-- A JSON value as Python's `json` module produces it, restricted to the
shapes the probe code can meet: strings, objects (dicts with insertion
order), arrays, numbers and null. -/
inductive Json where
  | str : String → Json
  | obj : List (String × Json) → Json
  | arr : List Json → Json
  | num : Int → Json
  | null : Json
deriving Repr

/-- The Python exceptions the probe code can raise and does not catch. -/
inductive PyError where
  | keyError : String → PyError
  | typeError : PyError
  | attributeError : PyError
deriving DecidableEq, Repr

/-- Python `str.strip()`: drop leading and trailing whitespace.  (Written on
the character list so that it evaluates by kernel reduction; `String.trim`
is defined through `Substring` functions that do not.) -/
def pyStrip (s : String) : String :=
  String.mk (((s.data.dropWhile Char.isWhitespace).reverse.dropWhile
    Char.isWhitespace).reverse)

/-- Substring test, as Python's `needle in hay` on strings. -/
def strContains (hay needle : String) : Bool :=
  (List.range (hay.length + 1)).any (fun i => needle.data.isPrefixOf (hay.data.drop i))

/-- Python `'status' in value`: key membership for a dict, substring test for
a string, element equality for a list; `TypeError` for a number or `None`. -/
def py_in_status : Json → Except PyError Bool
  | .obj kvs => .ok (kvs.any (fun kv => kv.1 == "status"))
  | .str s => .ok (strContains s "status")
  | .arr js => .ok (js.any (fun j => match j with | .str s => s == "status" | _ => false))
  | .num _ => .error .typeError
  | .null => .error .typeError

/-- Python `value['status']`: dict lookup (raising `KeyError` when the key is
absent), `TypeError` on any value that does not accept a string index. -/
def py_index_status : Json → Except PyError Json
  | .obj kvs => match kvs.lookup "status" with
      | some v => .ok v
      | none => .error (.keyError "status")
  | _ => .error .typeError

/-! ## SpringBootProbe (src/agent.py, class SpringBootProbe) -/

/-- The probe's fixed configuration: the validated health-check URL. -/
structure SpringBootProbe where
  check_url : String
deriving DecidableEq, Repr

/-- `SpringBootProbe.__init__(params)`: `params[0].strip()` — an empty
parameter list raises `IndexError` at the subscript, before the empty-URL
check; a first parameter that strips to the empty string raises
`Exception('Invalid URL')`. -/
def SpringBootProbe.init (params : List String) : Except String SpringBootProbe :=
  match params.get? 0 with
  | none => .error "list index out of range"
  | some p0 =>
      let check_url := pyStrip p0
      if check_url.length == 0 then .error "Invalid URL"
      else .ok ⟨check_url⟩

/-- One pass of the `for key, value in data.items()` loop body of
`SpringBootProbe.check`: the accumulator is `(description, all_up)`. -/
def check_step (acc : String × Bool) (kv : String × Json) : Except PyError (String × Bool) := do
  let b ← py_in_status kv.2
  if b then do
    let sv ← py_index_status kv.2
    match sv with
    | .str status => .ok (acc.1 ++ kv.1 ++ ": " ++ status ++ "\n", acc.2 && (status == "UP"))
    | _ => .error .typeError
  else .ok acc

/-- The whole `for key, value in data.items()` loop, starting from
`description = ""` and `all_up = True`. -/
def check_loop (items : List (String × Json)) : Except PyError (String × Bool) :=
  items.foldlM check_step ("", true)

/-- The outcome of `requests.get(url, timeout=5)` followed by `r.json()`:
either the GET raised a `requests.exceptions.RequestException`
(`requestError`), or the body was not valid JSON and `r.json()` raised
`JSONDecodeError` — a `RequestException` subclass in the requests releases an
unpinned install gets (`jsonError`) — or a JSON value was obtained. -/
inductive HttpResult where
  | requestError : String → HttpResult
  | jsonError : String → HttpResult
  | ok : Json → HttpResult

/-- The body of `SpringBootProbe.check` applied to the outcome of the HTTP
GET.  The `except requests.exceptions.RequestException` clause turns both
transport failures and undecodable bodies into `(4, str(err))`; everything
raised inside the `try` body that is not a `RequestException` (KeyError from
`data['status']`, TypeError from indexing/concatenation, AttributeError from
`.items()` on a non-dict) propagates. -/
def checkResponse (r : HttpResult) : Except PyError (Nat × String) :=
  match r with
  | .requestError e => .ok (4, e)
  | .jsonError e => .ok (4, e)
  | .ok json =>
    match json with
    | .obj items =>
        match check_loop items with
        | .error e => .error e
        | .ok (description, all_up) =>
          match py_index_status (.obj items) with
          | .error e => .error e
          | .ok coreJson =>
            match coreJson with
            | .str core_status =>
                .ok ((if all_up && (core_status == "UP") then 1 else 3),
                     "Core: " ++ core_status ++ "\n" ++ description)
            | _ => .error .typeError
    | _ => .error .attributeError

/-- `SpringBootProbe.check(self)`: issue the GET against `self.check_url`
(the network is modelled as a map from URL to `HttpResult`) and process the
outcome. -/
def SpringBootProbe.check (p : SpringBootProbe) (net : String → HttpResult) :
    Except PyError (Nat × String) :=
  checkResponse (net p.check_url)

/-! Spec-side definitions (for the refinement statement of the probe's
status mapping, following §4.3 of the spec). -/

/-- Modelled from the spec: the status a sub-object contributes — `some s`
exactly when the value is an object carrying a string `status` field. -/
def entryStatusSpec (v : Json) : Option String :=
  match v with
  | .obj kvs => match kvs.lookup "status" with
      | some (.str s) => some s
      | _ => none
  | _ => none

/-- Concatenation of a list of strings. -/
def joinStrs : List String → String
  | [] => ""
  | s :: rest => s ++ joinStrs rest

/-- Modelled from the spec: one `"<name>: <status>\n"` line per sub-object
carrying a `status` field, in iteration order. -/
def descriptionSpec (items : List (String × Json)) : String :=
  joinStrs (items.map (fun kv =>
    match entryStatusSpec kv.2 with
    | some s => kv.1 ++ ": " ++ s ++ "\n"
    | none => ""))

/-- Modelled from the spec: every sub-object carrying a `status` field has
status `"UP"`. -/
def allSubUp (items : List (String × Json)) : Bool :=
  items.all (fun kv =>
    match entryStatusSpec kv.2 with
    | some s => s == "UP"
    | none => true)

/-- A value the `check` loop handles without raising: an object whose
`status` field, if present, is a string; a string not containing `"status"`
as a substring; an array not containing the string `"status"`. -/
def goodValue : Json → Bool
  | .obj kvs => match kvs.lookup "status" with
      | some (.str _) => true
      | some _ => false
      | none => true
  | .str s => !(strContains s "status")
  | .arr js => !(js.any (fun j => match j with | .str s => s == "status" | _ => false))
  | .num _ => false
  | .null => false

/-! ## Entity resolver (src/agent.py, `_get_or_create_group`,
`_get_or_create_component`) -/

/-- The remote Cachet instance's taxonomy state, as observed through the
group/component list and create endpoints: groups as (id, name), components
as (id, name, group id).  The remote assigns fresh consecutive ids. -/
structure Remote where
  groups : List (Nat × String)
  components : List (Nat × String × Nat)
  nextId : Nat
deriving DecidableEq, Repr

/-- `Groups.get(params={'name': g})`: the groups whose name matches. -/
def groupsGet (r : Remote) (name : String) : List (Nat × String) :=
  r.groups.filter (fun g => g.2 == name)

/-- `Groups.post(name=g)`: create a group, returning its fresh id. -/
def groupsPost (r : Remote) (name : String) : Nat × Remote :=
  (r.nextId, { r with groups := r.groups ++ [(r.nextId, name)], nextId := r.nextId + 1 })

/-- `Components.get(params={'name': c, 'group_id': gid})`. -/
def componentsGet (r : Remote) (name : String) (gid : Nat) : List (Nat × String × Nat) :=
  r.components.filter (fun c => c.2.1 == name && c.2.2 == gid)

/-- `Components.post(name=c, group_id=gid, status=1)`: create a component
(initial status 1 = Operational), returning its fresh id. -/
def componentsPost (r : Remote) (name : String) (gid : Nat) : Nat × Remote :=
  (r.nextId,
   { r with
     components := r.components ++ [(r.nextId, name, gid)]
     nextId := r.nextId + 1 })

/-- The agent state the resolver threads: the group cache (`_group_cache`),
the remote state, and counters of the remote calls issued so far. -/
structure ResolveState where
  groupCache : List (String × Nat)
  remote : Remote
  groupGets : Nat
  groupPosts : Nat
  compGets : Nat
  compPosts : Nat
deriving DecidableEq, Repr

/-- `_get_or_create_group(group_name)`.  An empty name raises
`Exception('Invalid group name')`; a cached name returns immediately with no
remote call; otherwise one list call and, when the name is absent remotely,
one create call, caching the id either way.  The state is returned also on
the raising path (Python does not roll back side effects). -/
def get_or_create_group (s : ResolveState) (group_name : String) :
    ResolveState × Except String Nat :=
  if group_name.length == 0 then (s, .error "Invalid group name")
  else
    match s.groupCache.lookup group_name with
    | some id => (s, .ok id)
    | none =>
        let found := groupsGet s.remote group_name
        let s1 := { s with groupGets := s.groupGets + 1 }
        match found with
        | g :: _ =>
            ({ s1 with groupCache := (group_name, g.1) :: s1.groupCache }, .ok g.1)
        | [] =>
            let (id, r) := groupsPost s1.remote group_name
            ({ s1 with
               remote := r
               groupPosts := s1.groupPosts + 1
               groupCache := (group_name, id) :: s1.groupCache }, .ok id)

/-- `_get_or_create_component(group_id, component_name)`.  An empty name
raises `Exception('Invalid component name')`; otherwise one list call and,
when absent, one create call.  No component cache exists. -/
def get_or_create_component (s : ResolveState) (group_id : Nat) (component_name : String) :
    ResolveState × Except String Nat :=
  if component_name.length == 0 then (s, .error "Invalid component name")
  else
    let found := componentsGet s.remote component_name group_id
    let s1 := { s with compGets := s.compGets + 1 }
    match found with
    | c :: _ => (s1, .ok c.1)
    | [] =>
        let (id, r) := componentsPost s1.remote component_name group_id
        ({ s1 with remote := r, compPosts := s1.compPosts + 1 }, .ok id)

/-- The resolution a configuration line triggers (inlined in
`_create_probe`): group first, then component under the resolved group id. -/
def resolve_component (s : ResolveState) (g c : String) : ResolveState × Except String Nat :=
  match get_or_create_group s g with
  | (s1, .error e) => (s1, .error e)
  | (s1, .ok gid) => get_or_create_component s1 gid c

/-! ## Configuration parser (src/agent.py, `_create_probe`,
`_create_probes_from_data`, `_create_probes`) -/

/-- The guard `len(agent_conf) == 0 or agent_conf[0] == '#'`: the line (after
the caller's `.strip()`) is blank or a comment. -/
def is_skipped (line : String) : Bool :=
  line.length == 0 || line.front == '#'

/-- Splitting a character list on every comma, as Python `split(',')`. -/
def splitCommaAux : List Char → List Char → List (List Char)
  | [], acc => [acc.reverse]
  | c :: cs, acc =>
      if c == ',' then acc.reverse :: splitCommaAux cs []
      else splitCommaAux cs (c :: acc)

/-- `agent_conf.split(',')`. -/
def pySplitComma (s : String) : List String :=
  (splitCommaAux s.data []).map (fun cs => String.mk cs)

/-- `list(map(str.strip, agent_conf.split(',')))`. -/
def config_parts (line : String) : List String :=
  (pySplitComma line).map pyStrip

/-- Python list subscript: `IndexError` when out of range. -/
def pyIndexList (l : List String) (i : Nat) : Except String String :=
  match l.get? i with
  | some v => .ok v
  | none => .error "list index out of range"

/-- `_create_probe(agent_conf)`: skip blank/comment lines; read fields 0, 1,
2 (raising `IndexError` when fewer than three fields); resolve the group and
then the component (raising on empty names); only then dispatch on the
probe-kind identifier, raising `Exception('Unsupported probe ...')` for an
unknown kind, and construct the probe from the remaining fields. -/
def create_probe (s : ResolveState) (agent_conf : String) :
    ResolveState × Except String (Option (Nat × SpringBootProbe)) :=
  if is_skipped agent_conf then (s, .ok none)
  else
    let parts := config_parts agent_conf
    match pyIndexList parts 0 with
    | .error e => (s, .error e)
    | .ok group_name =>
      match pyIndexList parts 1 with
      | .error e => (s, .error e)
      | .ok component_name =>
        match pyIndexList parts 2 with
        | .error e => (s, .error e)
        | .ok probe_name =>
          match get_or_create_group s group_name with
          | (s1, .error e) => (s1, .error e)
          | (s1, .ok group_id) =>
            match get_or_create_component s1 group_id component_name with
            | (s2, .error e) => (s2, .error e)
            | (s2, .ok component_id) =>
              if probe_name == "SpringBoot" then
                match SpringBootProbe.init (parts.drop 3) with
                | .error e => (s2, .error e)
                | .ok probe => (s2, .ok (some (component_id, probe)))
              else (s2, .error ("Unsupported probe " ++ probe_name))

/-- Is the character one of the newline characters of `re.split('[\r\n]+', ...)`. -/
def isNL (c : Char) : Bool := c == '\r' || c == '\n'

/-- Splitting a character list on every single newline character. -/
def splitNLAux : List Char → List Char → List (List Char)
  | [], acc => [acc.reverse]
  | c :: cs, acc =>
      if isNL c then acc.reverse :: splitNLAux cs []
      else splitNLAux cs (c :: acc)

/-- Collapse the empty parts a run of adjacent newline characters leaves
between its first and last member, keeping the boundary parts (a leading or
trailing newline run yields a leading or trailing empty part, as with
`re.split`).  After a single-character split, a part is interior to a run
exactly when it is empty and neither first nor last. -/
def mergeNLRest : List String → List String
  | [] => []
  | [p] => [p]
  | p :: rest => if p = "" then mergeNLRest rest else p :: mergeNLRest rest

/-- `re.split('[\r\n]+', conf_data)`: split on maximal newline runs. -/
def pySplitNL (s : String) : List String :=
  match (splitNLAux s.data []).map (fun cs => String.mk cs) with
  | [] => []
  | p :: rest => p :: mergeNLRest rest

/-- The generator `_create_probes_from_data`, unrolled over the already split
lines: each line is stripped and handed to `_create_probe`; `None` results
are dropped; an exception escaping `_create_probe` aborts the iteration (the
state at the raise is kept). -/
def create_probes_lines (s : ResolveState) :
    List String → ResolveState × Except String (List (Nat × SpringBootProbe))
  | [] => (s, .ok [])
  | line :: rest =>
      match create_probe s (pyStrip line) with
      | (s1, .error e) => (s1, .error e)
      | (s1, .ok none) => create_probes_lines s1 rest
      | (s1, .ok (some p)) =>
          match create_probes_lines s1 rest with
          | (s2, .error e) => (s2, .error e)
          | (s2, .ok ps) => (s2, .ok (p :: ps))

/-- `_create_probes_from_data`: split the configuration text on newline runs
and create a probe per line. -/
def create_probes_from_data (s : ResolveState) (conf_data : String) :
    ResolveState × Except String (List (Nat × SpringBootProbe)) :=
  create_probes_lines s (pySplitNL conf_data)

/-- Python dict assignment `d[k] = v` on an association list. -/
def dictInsert (d : List (Nat × SpringBootProbe)) (k : Nat) (v : SpringBootProbe) :
    List (Nat × SpringBootProbe) :=
  if d.any (fun kv => kv.1 == k) then d.map (fun kv => if kv.1 == k then (k, v) else kv)
  else d ++ [(k, v)]

/-- `_create_probes` over environment-supplied configuration text: drain the
generator into the `_probes` dict. -/
def create_probes (s : ResolveState) (conf_data : String) :
    ResolveState × Except String (List (Nat × SpringBootProbe)) :=
  match create_probes_from_data s conf_data with
  | (s1, .error e) => (s1, .error e)
  | (s1, .ok ps) => (s1, .ok (ps.foldl (fun d p => dictInsert d p.1 p.2) []))

/-! ## Scheduler / run loop (src/agent.py, `CachetAgent.run`) -/

/-- One `components.put(id=..., status=..., description=...)` call issued by
`_update_component`. -/
structure Call where
  id : Nat
  status : Nat
  descr : String
deriving DecidableEq, Repr

/-- The body of the `for component_id, probe in self._probes.items()` loop
for one pair.  `checkRes id` is what `probe.check()` does this iteration
(`.error e` models a raised exception with message `str(err) = e`); `putRes`
is the reporter: `none` means the `put` succeeded, `some e` that it raised
`e`.  Returns the trace of `put` calls issued for the pair and, when an
exception escapes the `try/except` (only possible from the unguarded
`_update_component_exception` call inside the `except` block), its message. -/
def processPair (putRes : Call → Option String)
    (checkRes : Nat → Except String (Nat × String)) (id : Nat) :
    List Call × Option String :=
  match checkRes id with
  | .error e =>
      let c : Call := ⟨id, 4, e⟩
      ([c], putRes c)
  | .ok (st, d) =>
      let c : Call := ⟨id, st, d⟩
      match putRes c with
      | none => ([c], none)
      | some e2 =>
          let c2 : Call := ⟨id, 4, e2⟩
          ([c, c2], putRes c2)

/-- One iteration of the run loop over the registry (the component ids, in
dict order).  An exception escaping a pair aborts the whole `for` loop. -/
def runIteration (putRes : Call → Option String)
    (checkRes : Nat → Except String (Nat × String)) :
    List Nat → List Call × Option String
  | [] => ([], none)
  | id :: rest =>
      match processPair putRes checkRes id with
      | (tr, some err) => (tr, some err)
      | (tr, none) =>
          match runIteration putRes checkRes rest with
          | (tr2, e) => (tr ++ tr2, e)

/-- `n` iterations of the `while True` loop starting at iteration index `k`:
`checks k` gives each probe's behaviour during iteration `k`.  An exception
escaping an iteration's `for` loop ends the whole run (nothing above
catches it). -/
def run_loop_aux (putRes : Call → Option String)
    (checks : Nat → Nat → Except String (Nat × String)) (registry : List Nat) :
    Nat → Nat → List Call × Option String
  | _, 0 => ([], none)
  | k, n + 1 =>
      match runIteration putRes (checks k) registry with
      | (tr, some err) => (tr, some err)
      | (tr, none) =>
          match run_loop_aux putRes checks registry (k + 1) n with
          | (tr2, e) => (tr ++ tr2, e)

/-- The first `n` iterations of `CachetAgent.run`'s `while True` loop. -/
def run_loop (putRes : Call → Option String)
    (checks : Nat → Nat → Except String (Nat × String)) (registry : List Nat) (n : Nat) :
    List Call × Option String :=
  run_loop_aux putRes checks registry 0 n

/-! ## Helper lemmas -/

/-- A non-empty string has a `length == 0` test that evaluates to `false`. -/
theorem length_beq_zero_false {s : String} (h : s ≠ "") : (s.length == 0) = false := by
  simp only [beq_eq_false_iff_ne, ne_eq]
  intro hl
  exact h (String.ext (List.length_eq_zero.mp hl))

/-- `first_val` skips a leading `None`. -/
theorem first_val_none_cons (l : List (Option String)) : first_val (none :: l) = first_val l :=
  rfl

/-- `first_val` of a singleton returns it. -/
theorem first_val_single (x : Option String) : first_val [x] = x := by
  cases x <;> rfl

/-! ## C3 — precedence between CLI flags and environment variables -/

/-- Claim C3 counterexample: with both the environment variable and the CLI
flag supplied for the endpoint and the API token, `process_params` uses the
environment values, not the explicitly given CLI values — `first_val` is
called with the environment variable first. -/
theorem process_params_env_beats_cli :
    process_params ⟨some "http://env", some "token-env", none⟩
        ⟨some "http://cli", some "token-cli", 60, "agent.conf"⟩ =
      ⟨some "http://env", some "token-env", 60, "agent.conf", none⟩ ∧
    (some "http://env" : Option String) ≠ some "http://cli" ∧
    (some "token-env" : Option String) ≠ some "token-cli" := by
  refine ⟨rfl, ?_, ?_⟩ <;> decide

/-- Claim C3 (amended): for the endpoint and API token, when both sources are
supplied the ENVIRONMENT VARIABLE value is the one used; the CLI flag acts
only as fallback when the environment variable is unset. -/
theorem process_params_env_precedence (e : Env) (a : Args) (v : String) :
    (process_params { e with cachet_endpoint := some v } a).endpoint = some v ∧
    (process_params { e with cachet_endpoint := none } a).endpoint = a.endpoint ∧
    (process_params { e with cachet_api_token := some v } a).apiToken = some v ∧
    (process_params { e with cachet_api_token := none } a).apiToken = a.api_token := by
  refine ⟨rfl, ?_, rfl, ?_⟩ <;>
    simp [process_params, first_val_none_cons, first_val_single]

/-! ## C10 — SpringBootProbe construction from an empty parameter list -/

/-- Claim C10: constructing a `SpringBootProbe` from an empty parameter list
fails at the `params[0]` subscript (`IndexError: list index out of range`)
before the empty-URL validation can run; `Invalid URL` is raised exactly when
a first parameter exists and trims to the empty string, and otherwise the
probe is built with the trimmed URL. -/
theorem springboot_init_index_before_url_check :
    SpringBootProbe.init [] = .error "list index out of range" ∧
    (∀ p ps, pyStrip p = "" → SpringBootProbe.init (p :: ps) = .error "Invalid URL") ∧
    (∀ p ps, pyStrip p ≠ "" → SpringBootProbe.init (p :: ps) = .ok ⟨pyStrip p⟩) := by
  refine ⟨rfl, ?_, ?_⟩
  · intro p ps h
    simp [SpringBootProbe.init, h]
  · intro p ps h
    simp [SpringBootProbe.init, length_beq_zero_false h]

/-- Claim C10 witness: a whitespace-only first parameter raises
`Invalid URL`; a padded URL is accepted trimmed. -/
theorem springboot_init_index_before_url_check_witness :
    SpringBootProbe.init ["   "] = .error "Invalid URL" ∧
    SpringBootProbe.init [" http://u "] = .ok ⟨"http://u"⟩ :=
  ⟨springboot_init_index_before_url_check.2.1 "   " [] (by decide),
   springboot_init_index_before_url_check.2.2 " http://u " [] (by decide)⟩

/-! ## C7 — connection refused -/

/-- Claim C7: when the GET raises a transport-level request exception,
`check()` returns status 4 (Major Outage) with the stringified error as
description — non-empty whenever the error message is — and does not raise. -/
theorem springboot_check_connection_refused (url e : String) (h : e ≠ "") :
    SpringBootProbe.check ⟨url⟩ (fun _ => .requestError e) = .ok (4, e) ∧ e ≠ "" :=
  ⟨rfl, h⟩

/-- Claim C7 witness: a concrete refused connection. -/
theorem springboot_check_connection_refused_witness :
    SpringBootProbe.check ⟨"http://host/health"⟩
        (fun _ => .requestError "Connection refused") = .ok (4, "Connection refused") ∧
      "Connection refused" ≠ "" :=
  springboot_check_connection_refused "http://host/health" "Connection refused" (by decide)

/-! ## C2 — does `check()` ever raise? -/

/-- Claim C2 counterexample: a response body that parses as JSON but lacks
the expected structure (no top-level `status` field) makes `check()` raise
`KeyError('status')` at `data['status']` — it is not caught by the
`except requests.exceptions.RequestException` clause, so `check()` does
propagate an exception instead of returning Major Outage. -/
theorem springboot_check_raises_on_missing_status :
    SpringBootProbe.check ⟨"http://host/health"⟩
        (fun _ => .ok (.obj [("db", .obj [("status", .str "UP")])])) =
      .error (.keyError "status") := by
  rfl

/-- Claim C2 (amended): `check()` returns `(4, stringified error)` for every
transport-level failure caught as a `RequestException` (connection error,
timeout, and an undecodable body, whose `JSONDecodeError` is a
`RequestException` subclass in current requests releases); but a body that
parses as JSON without the expected structure — e.g. missing the top-level
`status` field — raises out of `check()` instead. -/
theorem springboot_check_transport_errors_as_data :
    (∀ url e, SpringBootProbe.check ⟨url⟩ (fun _ => .requestError e) = .ok (4, e)) ∧
    (∀ url e, SpringBootProbe.check ⟨url⟩ (fun _ => .jsonError e) = .ok (4, e)) ∧
    SpringBootProbe.check ⟨"http://host/health"⟩ (fun _ => .ok (.obj [])) =
      .error (.keyError "status") :=
  ⟨fun _ _ => rfl, fun _ _ => rfl, rfl⟩

/-! ## C8 — blank and comment lines produce an empty registry -/

/-- A blank or comment line is skipped without touching any state. -/
theorem create_probe_skipped (s : ResolveState) (line : String)
    (h : is_skipped line = true) : create_probe s line = (s, .ok none) := by
  simp [create_probe, h]

/-- Draining the generator over lines that all strip to blank or comment
yields no probes and leaves the state untouched. -/
theorem create_probes_lines_all_skipped (s : ResolveState) (lines : List String)
    (h : ∀ l ∈ lines, is_skipped (pyStrip l) = true) :
    create_probes_lines s lines = (s, .ok []) := by
  induction lines with
  | nil => rfl
  | cons l rest ih =>
      unfold create_probes_lines
      rw [create_probe_skipped s (pyStrip l) (h l (List.mem_cons_self l rest))]
      exact ih fun x hx => h x (List.mem_cons_of_mem l hx)

/-- Claim C8: configuration text consisting only of blank lines and comment
lines (first non-whitespace character `#`) produces no probe tuples, and the
resulting probe registry is empty. -/
theorem empty_and_comment_lines_empty_registry (s : ResolveState) (conf_data : String)
    (h : ∀ line ∈ pySplitNL conf_data, is_skipped (pyStrip line) = true) :
    create_probes_from_data s conf_data = (s, .ok []) ∧
    create_probes s conf_data = (s, .ok []) := by
  have main : create_probes_from_data s conf_data = (s, .ok []) :=
    create_probes_lines_all_skipped s (pySplitNL conf_data) h
  refine ⟨main, ?_⟩
  unfold create_probes
  rw [main]
  rfl

/-- Claim C8 witness: a concrete configuration of comments, blank lines and
whitespace-only lines. -/
theorem empty_and_comment_lines_empty_registry_witness :
    create_probes_from_data ⟨[], ⟨[], [], 1⟩, 0, 0, 0, 0⟩ "# a\n\n   \r\n  # b\n" =
        (⟨[], ⟨[], [], 1⟩, 0, 0, 0, 0⟩, .ok []) ∧
      create_probes ⟨[], ⟨[], [], 1⟩, 0, 0, 0, 0⟩ "# a\n\n   \r\n  # b\n" =
        (⟨[], ⟨[], [], 1⟩, 0, 0, 0, 0⟩, .ok []) :=
  empty_and_comment_lines_empty_registry ⟨[], ⟨[], [], 1⟩, 0, 0, 0, 0⟩
    "# a\n\n   \r\n  # b\n" (by decide)

/-! ## Resolver lemmas -/

/-- A group name already in the cache is returned without any remote call and
without any state change. -/
theorem get_or_create_group_cached (s : ResolveState) (g : String) (i : Nat)
    (hg : g ≠ "") (hc : s.groupCache.lookup g = some i) :
    get_or_create_group s g = (s, .ok i) := by
  simp [get_or_create_group, length_beq_zero_false hg, hc]

/-- Postcondition of a successful `_get_or_create_group` call: the id is
cached under the name; at most one create call was issued; nothing
component-related was touched; the name was non-empty. -/
theorem get_or_create_group_spec (s s' : ResolveState) (g : String) (gid : Nat)
    (h : get_or_create_group s g = (s', .ok gid)) :
    s'.groupCache.lookup g = some gid ∧
    s'.groupPosts ≤ s.groupPosts + 1 ∧
    s'.compGets = s.compGets ∧ s'.compPosts = s.compPosts ∧
    s'.remote.components = s.remote.components ∧
    g ≠ "" := by
  have hg : g ≠ "" := by
    intro hge
    subst hge
    simp [get_or_create_group] at h
  rw [get_or_create_group, length_beq_zero_false hg] at h
  simp only [Bool.false_eq_true, if_false] at h
  rcases hl : s.groupCache.lookup g with _ | i
  · rw [hl] at h
    rcases hfound : groupsGet s.remote g with _ | ⟨gr, tl⟩
    · rw [hfound] at h
      simp only [groupsPost, Prod.mk.injEq, Except.ok.injEq] at h
      obtain ⟨hs, hid⟩ := h
      subst hs
      refine ⟨?_, ?_, rfl, rfl, rfl, hg⟩
      · simp [List.lookup, hid]
      · exact Nat.le_refl _
    · rw [hfound] at h
      simp only [Prod.mk.injEq, Except.ok.injEq] at h
      obtain ⟨hs, hid⟩ := h
      subst hs
      refine ⟨?_, ?_, rfl, rfl, rfl, hg⟩
      · simp [List.lookup, hid]
      · exact Nat.le_succ _
  · rw [hl] at h
    simp only [Prod.mk.injEq, Except.ok.injEq] at h
    obtain ⟨hs, hid⟩ := h
    subst hs
    subst hid
    exact ⟨hl, Nat.le_succ _, rfl, rfl, rfl, hg⟩

/-- `_get_or_create_group` succeeds on every non-empty name (the remote
endpoints always answer in this model). -/
theorem get_or_create_group_success (s : ResolveState) (g : String) (hg : g ≠ "") :
    ∃ s' gid, get_or_create_group s g = (s', .ok gid) := by
  rw [get_or_create_group, length_beq_zero_false hg]
  simp only [Bool.false_eq_true, if_false]
  rcases hl : s.groupCache.lookup g with _ | i
  · rcases hfound : groupsGet s.remote g with _ | ⟨gr, tl⟩ <;> exact ⟨_, _, rfl⟩
  · exact ⟨_, _, rfl⟩

/-- Postcondition of a successful `_get_or_create_component` call: the
component is now first match of the remote listing for its name and group; at
most one create call was issued; nothing group-related was touched. -/
theorem get_or_create_component_spec (s s' : ResolveState) (gid i : Nat) (c : String)
    (h : get_or_create_component s gid c = (s', .ok i)) :
    (∃ cm tl, componentsGet s'.remote c gid = cm :: tl ∧ cm.1 = i) ∧
    s'.groupCache = s.groupCache ∧ s'.groupGets = s.groupGets ∧
    s'.groupPosts = s.groupPosts ∧
    s'.compPosts ≤ s.compPosts + 1 ∧
    c ≠ "" := by
  have hc : c ≠ "" := by
    intro hce
    subst hce
    simp [get_or_create_component] at h
  rw [get_or_create_component, length_beq_zero_false hc] at h
  simp only [Bool.false_eq_true, if_false] at h
  rcases hfound : componentsGet s.remote c gid with _ | ⟨cm, tl⟩
  · rw [hfound] at h
    simp only [componentsPost, Prod.mk.injEq, Except.ok.injEq] at h
    obtain ⟨hs, hid⟩ := h
    subst hs
    refine ⟨⟨(s.remote.nextId, c, gid), [], ?_, hid⟩, rfl, rfl, rfl, Nat.le_refl _, hc⟩
    simp [componentsGet, List.filter_append] at hfound ⊢
    exact hfound
  · rw [hfound] at h
    simp only [Prod.mk.injEq, Except.ok.injEq] at h
    obtain ⟨hs, hid⟩ := h
    subst hs
    exact ⟨⟨cm, tl, hfound, hid⟩, rfl, rfl, rfl, Nat.le_succ _, hc⟩

/-- When the remote listing already matches, `_get_or_create_component`
returns the first match's id and issues no create call. -/
theorem get_or_create_component_found (s : ResolveState) (gid : Nat) (c : String)
    (cm : Nat × String × Nat) (tl : List (Nat × String × Nat)) (hc : c ≠ "")
    (h : componentsGet s.remote c gid = cm :: tl) :
    get_or_create_component s gid c = ({ s with compGets := s.compGets + 1 }, .ok cm.1) := by
  rw [get_or_create_component, length_beq_zero_false hc]
  simp only [Bool.false_eq_true, if_false, h]

/-- `_get_or_create_component` succeeds on every non-empty name. -/
theorem get_or_create_component_success (s : ResolveState) (gid : Nat) (c : String)
    (hc : c ≠ "") : ∃ s' i, get_or_create_component s gid c = (s', .ok i) := by
  rw [get_or_create_component, length_beq_zero_false hc]
  simp only [Bool.false_eq_true, if_false]
  rcases hfound : componentsGet s.remote c gid with _ | ⟨cm, tl⟩ <;> exact ⟨_, _, rfl⟩

/-! ## C5 — idempotence of entity resolution -/

/-- Claim C5: resolving the same (group, component) pair twice in one run
issues at most one remote create-group and at most one create-component call
(the bounds over the first resolution, and none at all during the second),
returns the same component id both times, and a group name already present
in the group cache is never re-resolved remotely (no state change at all,
hence no remote group call). -/
theorem resolve_component_idempotent :
    (∀ s g c i s1, resolve_component s g c = (s1, .ok i) →
      s1.groupPosts ≤ s.groupPosts + 1 ∧
      s1.compPosts ≤ s.compPosts + 1 ∧
      ∃ s2, resolve_component s1 g c = (s2, .ok i) ∧
        s2.groupPosts = s1.groupPosts ∧
        s2.compPosts = s1.compPosts ∧
        s2.groupGets = s1.groupGets) ∧
    (∀ s g i, g ≠ "" → s.groupCache.lookup g = some i →
      get_or_create_group s g = (s, .ok i)) := by
  constructor
  · intro s g c i s1 h
    unfold resolve_component at h
    rcases hg1 : get_or_create_group s g with ⟨sA, e | gid⟩
    · rw [hg1] at h
      simp at h
    · rw [hg1] at h
      obtain ⟨hcacheA, hgpostA, hcgetA, hcpostA, hremA, hgneA⟩ :=
        get_or_create_group_spec s sA g gid hg1
      obtain ⟨⟨cm, tl, hfind, hcmid⟩, hcache1, hgget1, hgpost1, hcpost1, hcne⟩ :=
        get_or_create_component_spec sA s1 gid i c h
      refine ⟨?_, ?_, ?_⟩
      · rw [hgpost1]
        exact hgpostA
      · rw [hcpostA] at hcpost1
        exact hcpost1
      · have hcached : get_or_create_group s1 g = (s1, .ok gid) := by
          apply get_or_create_group_cached s1 g gid hgneA
          rw [hcache1]
          exact hcacheA
        refine ⟨{ s1 with compGets := s1.compGets + 1 }, ?_, rfl, rfl, rfl⟩
        unfold resolve_component
        rw [hcached]
        have hfnd := get_or_create_component_found s1 gid c cm tl hcne hfind
        show get_or_create_component s1 gid c = _
        rw [hfnd, hcmid]
  · exact fun s g i hg hc => get_or_create_group_cached s g i hg hc

/-- Claim C5 witness: resolving ("Infra", "API") from a fresh state creates
both entities (id 2 for the component) and a second resolution returns the
same id without further create calls; a cached group name is returned
untouched. -/
theorem resolve_component_idempotent_witness :
    ((⟨[("Infra", 1)], ⟨[(1, "Infra")], [(2, "API", 1)], 3⟩, 1, 1, 1, 1⟩ :
        ResolveState).groupPosts ≤
        (⟨[], ⟨[], [], 1⟩, 0, 0, 0, 0⟩ : ResolveState).groupPosts + 1 ∧
      (⟨[("Infra", 1)], ⟨[(1, "Infra")], [(2, "API", 1)], 3⟩, 1, 1, 1, 1⟩ :
        ResolveState).compPosts ≤
        (⟨[], ⟨[], [], 1⟩, 0, 0, 0, 0⟩ : ResolveState).compPosts + 1 ∧
      ∃ s2, resolve_component
          ⟨[("Infra", 1)], ⟨[(1, "Infra")], [(2, "API", 1)], 3⟩, 1, 1, 1, 1⟩
          "Infra" "API" = (s2, .ok 2) ∧
        s2.groupPosts =
          (⟨[("Infra", 1)], ⟨[(1, "Infra")], [(2, "API", 1)], 3⟩, 1, 1, 1, 1⟩ :
            ResolveState).groupPosts ∧
        s2.compPosts =
          (⟨[("Infra", 1)], ⟨[(1, "Infra")], [(2, "API", 1)], 3⟩, 1, 1, 1, 1⟩ :
            ResolveState).compPosts ∧
        s2.groupGets =
          (⟨[("Infra", 1)], ⟨[(1, "Infra")], [(2, "API", 1)], 3⟩, 1, 1, 1, 1⟩ :
            ResolveState).groupGets) ∧
    get_or_create_group ⟨[("G", 7)], ⟨[(7, "G")], [], 8⟩, 1, 0, 0, 0⟩ "G" =
      (⟨[("G", 7)], ⟨[(7, "G")], [], 8⟩, 1, 0, 0, 0⟩, .ok 7) :=
  ⟨resolve_component_idempotent.1 ⟨[], ⟨[], [], 1⟩, 0, 0, 0, 0⟩ "Infra" "API" 2
      ⟨[("Infra", 1)], ⟨[(1, "Infra")], [(2, "API", 1)], 3⟩, 1, 1, 1, 1⟩ (by decide),
   resolve_component_idempotent.2 ⟨[("G", 7)], ⟨[(7, "G")], [], 8⟩, 1, 0, 0, 0⟩ "G" 7
      (by decide) (by decide)⟩

/-! ## Parser lemmas -/

/-- A non-skipped line with fewer than three comma-separated fields fails at
`config_parts[1]` or `config_parts[2]` with an `IndexError` before any
resolution takes place. -/
theorem create_probe_short (s : ResolveState) (line : String)
    (hns : is_skipped line = false) (hlen : (config_parts line).length < 3) :
    create_probe s line = (s, .error "list index out of range") := by
  rcases hp : config_parts line with _ | ⟨a, _ | ⟨b, _ | ⟨k, rest⟩⟩⟩
  · simp [create_probe, hns, hp, pyIndexList]
  · simp [create_probe, hns, hp, pyIndexList]
  · simp [create_probe, hns, hp, pyIndexList]
  · rw [hp] at hlen
    simp at hlen
    omega

/-- On a non-skipped line with at least three fields, `_create_probe` reduces
to resolution followed by probe-kind dispatch. -/
theorem create_probe_three (s : ResolveState) (line g c k : String) (rest : List String)
    (hns : is_skipped line = false) (hp : config_parts line = g :: c :: k :: rest) :
    create_probe s line =
      match get_or_create_group s g with
      | (s1, .error e) => (s1, .error e)
      | (s1, .ok gid) =>
        match get_or_create_component s1 gid c with
        | (s2, .error e) => (s2, .error e)
        | (s2, .ok cid) =>
          if k == "SpringBoot" then
            match SpringBootProbe.init rest with
            | .error e => (s2, .error e)
            | .ok pr => (s2, .ok (some (cid, pr)))
          else (s2, .error ("Unsupported probe " ++ k)) := by
  simp [create_probe, hns, hp, pyIndexList]

/-! ## C6 — rejection of malformed configuration lines -/

/-- Claim C6: every non-empty, non-comment configuration line with fewer than
three comma-separated fields, or an empty group or component name, or an
unsupported probe-kind identifier, makes `_create_probe` raise (the spec's
ConfigError: an `IndexError`, `Invalid group name` / `Invalid component
name`, or `Unsupported probe ...` exception), so the line contributes no
entry to the probe registry. -/
theorem create_probe_rejects_bad_lines (s : ResolveState) (line : String)
    (hns : is_skipped line = false)
    (hbad : (config_parts line).length < 3 ∨
      (config_parts line).get? 0 = some "" ∨
      (config_parts line).get? 1 = some "" ∨
      (∃ p, (config_parts line).get? 2 = some p ∧ p ≠ "SpringBoot")) :
    ∃ s' e, create_probe s line = (s', .error e) ∧
      ∀ s'' res, create_probe s line ≠ (s'', .ok res) := by
  suffices main : ∃ s' e, create_probe s line = (s', Except.error e) by
    obtain ⟨s', e, heq⟩ := main
    refine ⟨s', e, heq, fun s'' res hc => ?_⟩
    rw [heq] at hc
    simp at hc
  rcases hp : config_parts line with _ | ⟨a, _ | ⟨b, _ | ⟨k, rest⟩⟩⟩
  · exact ⟨s, _, create_probe_short s line hns (by simp [hp])⟩
  · exact ⟨s, _, create_probe_short s line hns (by simp [hp])⟩
  · exact ⟨s, _, create_probe_short s line hns (by simp [hp])⟩
  · rw [create_probe_three s line a b k rest hns hp]
    rcases hbad with hlen | h0 | h1 | ⟨p, hp2, hpk⟩
    · rw [hp] at hlen
      simp at hlen
      omega
    · rw [hp] at h0
      simp only [List.get?_cons_zero, Option.some.injEq] at h0
      subst h0
      exact ⟨s, "Invalid group name", rfl⟩
    · rw [hp] at h1
      simp only [List.get?_cons_succ, List.get?_cons_zero, Option.some.injEq] at h1
      subst h1
      rcases hg1 : get_or_create_group s a with ⟨s1, e | gid⟩
      · exact ⟨s1, e, rfl⟩
      · exact ⟨s1, "Invalid component name", rfl⟩
    · rw [hp] at hp2
      simp only [List.get?_cons_succ, List.get?_cons_zero, Option.some.injEq] at hp2
      subst hp2
      rcases hg1 : get_or_create_group s a with ⟨s1, e | gid⟩
      · exact ⟨s1, e, rfl⟩
      · dsimp only
        rcases hc1 : get_or_create_component s1 gid b with ⟨s2, e | cid⟩
        · exact ⟨s2, e, rfl⟩
        · dsimp only
          rw [show (k == "SpringBoot") = false from beq_eq_false_iff_ne.mpr hpk]
          exact ⟨s2, "Unsupported probe " ++ k, rfl⟩

/-- Claim C6 witness: the two-field line "Infra,API" raises and contributes
no registry entry. -/
theorem create_probe_rejects_bad_lines_witness :
    is_skipped "Infra,API" = false ∧
    (config_parts "Infra,API").length < 3 ∧
    (∃ s' e, create_probe ⟨[], ⟨[], [], 1⟩, 0, 0, 0, 0⟩ "Infra,API" = (s', .error e) ∧
      ∀ s'' res, create_probe ⟨[], ⟨[], [], 1⟩, 0, 0, 0, 0⟩ "Infra,API" ≠ (s'', .ok res)) :=
  ⟨by decide, by decide,
   create_probe_rejects_bad_lines ⟨[], ⟨[], [], 1⟩, 0, 0, 0, 0⟩ "Infra,API"
     (by decide) (Or.inl (by decide))⟩

/-! ## C9 — unsupported probe kind is rejected only after resolution -/

/-- Claim C9: on a non-empty, non-comment line with at least three fields and
non-empty names, the group and the component are resolved — creating them
remotely when absent and updating the group cache — BEFORE the probe-kind
identifier is validated: with an unknown kind, `_create_probe` raises
`Unsupported probe ...` from exactly the state the resolution produced, in
which the group id is cached and the component exists remotely. -/
theorem unknown_probe_kind_still_resolves (s : ResolveState) (line g c k : String)
    (rest : List String) (hns : is_skipped line = false)
    (hp : config_parts line = g :: c :: k :: rest)
    (hg : g ≠ "") (hc : c ≠ "") (hk : k ≠ "SpringBoot") :
    ∃ gid cid s1 s2,
      get_or_create_group s g = (s1, .ok gid) ∧
      get_or_create_component s1 gid c = (s2, .ok cid) ∧
      create_probe s line = (s2, .error ("Unsupported probe " ++ k)) ∧
      s2.groupCache.lookup g = some gid ∧
      ∃ cm tl, componentsGet s2.remote c gid = cm :: tl ∧ cm.1 = cid := by
  obtain ⟨s1, gid, hg1⟩ := get_or_create_group_success s g hg
  obtain ⟨s2, cid, hc1⟩ := get_or_create_component_success s1 gid c hc
  have gspec := get_or_create_group_spec s s1 g gid hg1
  have cspec := get_or_create_component_spec s1 s2 gid cid c hc1
  refine ⟨gid, cid, s1, s2, hg1, hc1, ?_, ?_, cspec.1⟩
  · rw [create_probe_three s line g c k rest hns hp, hg1]
    dsimp only
    rw [hc1]
    dsimp only
    rw [show (k == "SpringBoot") = false from beq_eq_false_iff_ne.mpr hk]
    rfl
  · rw [cspec.2.1]
    exact gspec.1

/-- Claim C9 witness: from a fresh state, the line "Infra,API,Nagios,x"
raises `Unsupported probe Nagios` yet leaves the group "Infra" and the
component "API" created remotely. -/
theorem unknown_probe_kind_still_resolves_witness :
    (∃ gid cid s1 s2,
      get_or_create_group ⟨[], ⟨[], [], 1⟩, 0, 0, 0, 0⟩ "Infra" = (s1, .ok gid) ∧
      get_or_create_component s1 gid "API" = (s2, .ok cid) ∧
      create_probe ⟨[], ⟨[], [], 1⟩, 0, 0, 0, 0⟩ "Infra,API,Nagios,x" =
        (s2, .error ("Unsupported probe " ++ "Nagios")) ∧
      s2.groupCache.lookup "Infra" = some gid ∧
      ∃ cm tl, componentsGet s2.remote "API" gid = cm :: tl ∧ cm.1 = cid) ∧
    (create_probe ⟨[], ⟨[], [], 1⟩, 0, 0, 0, 0⟩ "Infra,API,Nagios,x").1.remote =
      ⟨[(1, "Infra")], [(2, "API", 1)], 3⟩ :=
  ⟨unknown_probe_kind_still_resolves ⟨[], ⟨[], [], 1⟩, 0, 0, 0, 0⟩ "Infra,API,Nagios,x"
      "Infra" "API" "Nagios" ["x"] (by decide) (by decide) (by decide) (by decide)
      (by decide),
   by decide⟩

/-! ## Probe status-mapping lemmas (C4) -/

/-- The membership test `'status' in data` run by the loop agrees with the
lookup `data['status']` being defined. -/
theorem any_status_eq_lookup_isSome (kvs : List (String × Json)) :
    kvs.any (fun kv => kv.1 == "status") = (kvs.lookup "status").isSome := by
  induction kvs with
  | nil => rfl
  | cons kv rest ih =>
      obtain ⟨k, v⟩ := kv
      by_cases hk : k = "status"
      · subst hk
        simp [List.lookup]
      · have h1 : (k == "status") = false := beq_eq_false_iff_ne.mpr hk
        have h2 : ("status" == k) = false := beq_eq_false_iff_ne.mpr (Ne.symm hk)
        simp only [List.any_cons, h1, Bool.false_or, ih, List.lookup, h2]

/-- On a value the loop skips or handles, `check_step` appends that value's
line and conjoins its up-flag. -/
theorem check_step_good (d0 : String) (b0 : Bool) (k : String) (v : Json)
    (hv : goodValue v = true) :
    check_step (d0, b0) (k, v) =
      .ok (match entryStatusSpec v with
           | some sv => (d0 ++ k ++ ": " ++ sv ++ "\n", b0 && (sv == "UP"))
           | none => (d0, b0)) := by
  cases v with
  | obj kvs =>
      rcases hl : kvs.lookup "status" with _ | sv
      · have hany : (kvs.any (fun kv => kv.1 == "status")) = false := by
          rw [any_status_eq_lookup_isSome, hl]
          rfl
        simp only [check_step, py_in_status, hany, entryStatusSpec, hl]
        rfl
      · cases sv with
        | str sstr =>
            have hany : (kvs.any (fun kv => kv.1 == "status")) = true := by
              rw [any_status_eq_lookup_isSome, hl]
              rfl
            simp only [check_step, py_in_status, py_index_status, hany, hl, entryStatusSpec]
            rfl
        | obj o => simp [goodValue, hl] at hv
        | arr a => simp [goodValue, hl] at hv
        | num n => simp [goodValue, hl] at hv
        | null => simp [goodValue, hl] at hv
  | str sstr =>
      have hcs : strContains sstr "status" = false := by
        have := hv
        simp only [goodValue, Bool.not_eq_true'] at this
        exact this
      simp only [check_step, py_in_status, hcs, entryStatusSpec]
      rfl
  | arr js =>
      have hcs : (js.any (fun j => match j with | .str s => s == "status" | _ => false))
          = false := by
        have := hv
        simp only [goodValue, Bool.not_eq_true'] at this
        exact this
      simp only [check_step, py_in_status, hcs, entryStatusSpec]
      rfl
  | num n => simp [goodValue] at hv
  | null => simp [goodValue] at hv

/-- The whole description/all_up loop, on good values, computes the spec's
description and conjunction of up-flags, relative to any starting
accumulator. -/
theorem check_loop_good (items : List (String × Json)) (d0 : String) (b0 : Bool)
    (h : ∀ kv ∈ items, goodValue kv.2 = true) :
    items.foldlM check_step (d0, b0) =
      .ok (d0 ++ descriptionSpec items, b0 && allSubUp items) := by
  induction items generalizing d0 b0 with
  | nil =>
      simp only [descriptionSpec, List.map_nil, joinStrs, allSubUp, List.all_nil,
        String.append_empty, Bool.and_true]
      rfl
  | cons kv rest ih =>
      obtain ⟨k, v⟩ := kv
      have hkv : goodValue v = true := h (k, v) (List.mem_cons_self _ rest)
      have hrest : ∀ x ∈ rest, goodValue x.2 = true :=
        fun x hx => h x (List.mem_cons_of_mem _ hx)
      rw [List.foldlM_cons, check_step_good d0 b0 k v hkv]
      rcases hs : entryStatusSpec v with _ | sv
      · simp only [hs]
        show rest.foldlM check_step (d0, b0) = _
        rw [ih d0 b0 hrest]
        simp only [descriptionSpec, List.map_cons, joinStrs, allSubUp, List.all_cons, hs]
        rfl
      · simp only [hs]
        show rest.foldlM check_step (d0 ++ k ++ ": " ++ sv ++ "\n", b0 && (sv == "UP")) = _
        rw [ih _ _ hrest]
        simp only [descriptionSpec, List.map_cons, joinStrs, allSubUp, List.all_cons, hs]
        simp [String.append_assoc, Bool.and_assoc]

/-! ## C4 — status derivation for parsed health responses -/

/-- Claim C4: for every fetched health response that parses to an object
carrying a top-level string `status` and only values the loop handles
without raising, `check()` returns status 1 (Operational) exactly when the
core status is "UP" and every sub-object carrying a `status` field has
status "UP", and 3 (Partial Outage) otherwise; the description is the
"Core: <core status>" line followed by one "<name>: <status>" line per such
sub-object, in iteration order.  In particular the response
{"status":"UP","db":{"status":"UP"}} yields (1, "Core: UP\ndb: UP\n"). -/
theorem springboot_check_status_mapping :
    (∀ (url : String) (items : List (String × Json)) (core : String),
      items.lookup "status" = some (.str core) →
      (∀ kv ∈ items, goodValue kv.2 = true) →
      SpringBootProbe.check ⟨url⟩ (fun _ => .ok (.obj items)) =
        .ok ((if core == "UP" && allSubUp items then 1 else 3),
             "Core: " ++ core ++ "\n" ++ descriptionSpec items)) ∧
    SpringBootProbe.check ⟨"http://host/health"⟩
        (fun _ => .ok (.obj [("status", Json.str "UP"),
                             ("db", Json.obj [("status", Json.str "UP")])])) =
      .ok (1, "Core: UP\ndb: UP\n") := by
  constructor
  · intro url items core hcore hgood
    show checkResponse (.ok (.obj items)) = _
    have hloop : check_loop items =
        .ok ("" ++ descriptionSpec items, true && allSubUp items) :=
      check_loop_good items "" true hgood
    have hidx : py_index_status (.obj items) = .ok (.str core) := by
      simp [py_index_status, hcore]
    unfold checkResponse
    dsimp only
    rw [hloop]
    dsimp only
    rw [hidx]
    dsimp only
    rw [Bool.true_and, Bool.and_comm (allSubUp items) (core == "UP")]
    rfl
  · rfl

/-- Claim C4 witness: a response with one subsystem DOWN maps to
(3, "Core: UP\ndb: DOWN\n"). -/
theorem springboot_check_status_mapping_witness :
    SpringBootProbe.check ⟨"http://host/health"⟩
        (fun _ => .ok (.obj [("status", Json.str "UP"),
                             ("db", Json.obj [("status", Json.str "DOWN")])])) =
      .ok (3, "Core: UP\ndb: DOWN\n") :=
  springboot_check_status_mapping.1 "http://host/health"
    [("status", Json.str "UP"), ("db", Json.obj [("status", Json.str "DOWN")])] "UP"
    rfl (by decide)

/-! ## Run-loop lemmas (C1) -/

/-- When exception-reporting updates (status 4) never fail, one pair never
lets an exception escape, and a failed `probe.check()` always results in the
exception-reporting `put` appearing in the trace. -/
theorem processPair_isolated (putRes : Call → Option String)
    (checkRes : Nat → Except String (Nat × String)) (id : Nat)
    (h4 : ∀ c : Call, c.status = 4 → putRes c = none) :
    (processPair putRes checkRes id).2 = none ∧
    ∀ e, checkRes id = .error e →
      (⟨id, 4, e⟩ : Call) ∈ (processPair putRes checkRes id).1 := by
  unfold processPair
  rcases hcr : checkRes id with e | ⟨st, d⟩ <;> dsimp only
  · refine ⟨h4 ⟨id, 4, e⟩ rfl, fun e' he' => ?_⟩
    obtain rfl : e = e' := by injection he'
    exact List.mem_singleton.mpr rfl
  · rcases hp : putRes ⟨id, st, d⟩ with _ | e2 <;> dsimp only
    · exact ⟨rfl, fun e' he' => Except.noConfusion he'⟩
    · exact ⟨h4 ⟨id, 4, e2⟩ rfl, fun e' he' => Except.noConfusion he'⟩

/-- When exception-reporting updates never fail, a whole iteration processes
every pair: no exception escapes the `for` loop and every failed check's
exception report is in the trace. -/
theorem runIteration_isolated (putRes : Call → Option String)
    (checkRes : Nat → Except String (Nat × String)) (registry : List Nat)
    (h4 : ∀ c : Call, c.status = 4 → putRes c = none) :
    (runIteration putRes checkRes registry).2 = none ∧
    ∀ id ∈ registry, ∀ e, checkRes id = .error e →
      (⟨id, 4, e⟩ : Call) ∈ (runIteration putRes checkRes registry).1 := by
  induction registry with
  | nil => exact ⟨rfl, fun id hid => absurd hid (List.not_mem_nil id)⟩
  | cons id0 rest ih =>
      obtain ⟨hpp2, hppmem⟩ := processPair_isolated putRes checkRes id0 h4
      rcases hpp : processPair putRes checkRes id0 with ⟨tr, pe⟩
      rw [hpp] at hpp2 hppmem
      dsimp only at hpp2
      subst hpp2
      rcases hri : runIteration putRes checkRes rest with ⟨tr2, e2⟩
      obtain ⟨hih2, hihmem⟩ := ih
      rw [hri] at hih2 hihmem
      dsimp only at hih2
      subst hih2
      unfold runIteration
      rw [hpp]
      dsimp only
      rw [hri]
      refine ⟨rfl, fun id hid e he => ?_⟩
      rcases List.mem_cons.mp hid with hhd | htl
      · subst hhd
        exact List.mem_append_left tr2 (hppmem e he)
      · exact List.mem_append_right tr (hihmem id htl e he)

/-- When exception-reporting updates never fail, every iteration of the
`while True` loop completes and every check failure in it is reported. -/
theorem run_loop_aux_isolated (putRes : Call → Option String)
    (checks : Nat → Nat → Except String (Nat × String)) (registry : List Nat)
    (h4 : ∀ c : Call, c.status = 4 → putRes c = none) :
    ∀ n k, (run_loop_aux putRes checks registry k n).2 = none ∧
      ∀ id ∈ registry, ∀ j, j < n → ∀ e, checks (k + j) id = .error e →
        (⟨id, 4, e⟩ : Call) ∈ (run_loop_aux putRes checks registry k n).1 := by
  intro n
  induction n with
  | zero => exact fun k => ⟨rfl, fun id _ j hj => absurd hj (Nat.not_lt_zero j)⟩
  | succ n ih =>
      intro k
      obtain ⟨hit2, hitmem⟩ := runIteration_isolated putRes (checks k) registry h4
      rcases hit : runIteration putRes (checks k) registry with ⟨tr, pe⟩
      rw [hit] at hit2 hitmem
      dsimp only at hit2
      subst hit2
      obtain ⟨hrec2, hrecmem⟩ := ih (k + 1)
      rcases hrec : run_loop_aux putRes checks registry (k + 1) n with ⟨tr2, e2⟩
      rw [hrec] at hrec2 hrecmem
      dsimp only at hrec2
      subst hrec2
      unfold run_loop_aux
      rw [hit]
      dsimp only
      rw [hrec]
      refine ⟨rfl, fun id hid j hj e he => ?_⟩
      rcases j with _ | j
      · exact List.mem_append_left tr2 (hitmem id hid e he)
      · refine List.mem_append_right tr (hrecmem id hid j (Nat.lt_of_succ_lt_succ hj) e ?_)
        rw [show k + 1 + j = k + (j + 1) from by omega]
        exact he

/-! ## C1 — failure isolation in the run loop -/

/-- Claim C1 counterexample: with a registry of two components where
component 1's probe raises and every reporter `put` fails, the exception
raised by the unguarded `_update_component_exception` call inside the
`except` block escapes the `for` loop after the first pair: the run stops
(second output `some "api down"`) and component 2 is never processed — no
call with id 2 appears in the trace. -/
theorem run_loop_stops_on_report_exception_failure :
    run_loop (fun _ => some "api down")
        (fun _ i => if i == 1 then .error "boom" else .ok (1, "ok")) [1, 2] 1 =
      ([⟨1, 4, "boom"⟩], some "api down") ∧
    ∀ c ∈ (run_loop (fun _ => some "api down")
        (fun _ i => if i == 1 then .error "boom" else .ok (1, "ok")) [1, 2] 1).1,
      c.id ≠ 2 := by
  refine ⟨rfl, ?_⟩
  decide

/-- Claim C1 (amended): the scheduler catches any exception from
`probe.check()` or the report and calls the exception-reporting update; but
that call is itself unguarded, so it is only when exception-reporting
updates succeed that no probe or reporting failure ever stops the schedule —
then every iteration completes (no escaping exception) and every check
failure is reported with status 4.  (The counterexample shows the loop
stopping when the exception-reporting call fails.) -/
theorem run_loop_isolated_when_exception_reporting_succeeds
    (putRes : Call → Option String)
    (checks : Nat → Nat → Except String (Nat × String)) (registry : List Nat) (n : Nat)
    (h4 : ∀ c : Call, c.status = 4 → putRes c = none) :
    (run_loop putRes checks registry n).2 = none ∧
    ∀ id ∈ registry, ∀ j, j < n → ∀ e, checks j id = .error e →
      (⟨id, 4, e⟩ : Call) ∈ (run_loop putRes checks registry n).1 := by
  obtain ⟨h2, hmem⟩ := run_loop_aux_isolated putRes checks registry h4 n 0
  refine ⟨h2, fun id hid j hj e he => hmem id hid j hj e ?_⟩
  rw [Nat.zero_add]
  exact he

/-- Claim C1 witness: with a reporter that always succeeds, three iterations
over a registry whose component 1 always raises complete without the loop
stopping, and the exception report for component 1 is in the trace. -/
theorem run_loop_isolated_witness :
    (run_loop (fun _ => none)
        (fun _ i => if i == 1 then .error "boom" else .ok (1, "ok")) [1, 2] 3).2 =
      none ∧
    (⟨1, 4, "boom"⟩ : Call) ∈ (run_loop (fun _ => none)
        (fun _ i => if i == 1 then .error "boom" else .ok (1, "ok")) [1, 2] 3).1 :=
  ⟨(run_loop_isolated_when_exception_reporting_succeeds (fun _ => none)
      (fun _ i => if i == 1 then .error "boom" else .ok (1, "ok")) [1, 2] 3
      (fun _ _ => rfl)).1,
   (run_loop_isolated_when_exception_reporting_succeeds (fun _ => none)
      (fun _ i => if i == 1 then .error "boom" else .ok (1, "ok")) [1, 2] 3
      (fun _ _ => rfl)).2 1 (by decide) 0 (by decide) "boom" rfl⟩
